import Mathlib

/-!
Shallow embedding of `libpod/networking_slirp4netns.go` (slirp4netns-based
rootless network bootstrap) and verification of its specification claims.

The pure computations of the Go file (option parsing, argument building,
IP arithmetic, port-mapping expansion) are translated directly.  Stateful
and process-interacting code (the readiness barrier, the DAD sysctl
coordinator, the reload-socket client) is embedded as functions over
explicit event traces / environment records, one event per external
interaction of the corresponding Go loop.  Go standard-library functions
used by the file (`strconv.Atoi`, `strings.SplitN`, `net.ParseIP`,
`net.ParseCIDR`, `IPNet.Contains`, `strconv` quoting) are modelled
faithfully below at the level of detail the file exercises.
-/

deriving instance DecidableEq for Except

namespace Slirp4netns

/-! ## Models of Go standard-library string helpers -/

/-- Value of a list of decimal digit characters (most significant first). -/
def digitsToNat (l : List Char) : Nat :=
  l.foldl (fun acc c => acc * 10 + (c.toNat - '0'.toNat)) 0

/-- Model of Go `strconv.Atoi` on a 64-bit platform: optional sign, then
decimal digits; the empty string, stray characters, and values outside the
`int64` range are errors. -/
def goAtoi (s : String) : Option Int :=
  let parseDigits : List Char → Int → Option Int := fun ds sign =>
    if ds ≠ [] ∧ ds.all Char.isDigit then
      let n : Int := sign * (digitsToNat ds : Int)
      if n < -(2 ^ 63) ∨ 2 ^ 63 - 1 < n then none else some n
    else none
  match s.data with
  | '+' :: rest => parseDigits rest 1
  | '-' :: rest => parseDigits rest (-1)
  | rest => parseDigits rest 1

/-- Model of Go `strings.SplitN(s, "=", 2)`: `none` when `s` contains no
`'='` (the `len(parts) < 2` case), otherwise the parts before and after the
first `'='`. -/
def splitEq2 (s : String) : Option (String × String) :=
  match s.data.span (fun c => c ≠ '=') with
  | (_, []) => none
  | (pre, _ :: post) => some (String.mk pre, String.mk post)

/-- Key of a `key=value` option string (empty when there is no `'='`). -/
def keyOf (o : String) : String :=
  match splitEq2 o with
  | some kv => kv.1
  | none => ""

/-- Escaping of one character, modelling Go `%q` (`strconv.Quote`) for the
ASCII range; characters outside it are collapsed to an escape marker, which
is precise enough for every use in the file. -/
def quoteChar (c : Char) : List Char :=
  if c = '"' then ['\\', '"']
  else if c = '\\' then ['\\', '\\']
  else if c = '\n' then ['\\', 'n']
  else if c = '\t' then ['\\', 't']
  else if c = '\r' then ['\\', 'r']
  else if 32 ≤ c.toNat ∧ c.toNat < 127 then [c]
  else ['\\', 'x']

/-- Model of Go `%q` formatting: the argument, escaped, in double quotes. -/
def goQuote (s : String) : String :=
  "\"" ++ String.mk ((s.data.map quoteChar).flatten) ++ "\""

/-- A character that `%q` reproduces verbatim. -/
def plainChar (c : Char) : Bool :=
  decide (32 ≤ c.toNat) && decide (c.toNat < 127) && c ≠ '"' && c ≠ '\\'

/-- Splitting of a character list at every occurrence of a separator
character (an empty input yields one empty part, as in Go). -/
def splitOnCharList (sep : Char) : List Char → List (List Char)
  | [] => [[]]
  | c :: rest =>
    match splitOnCharList sep rest with
    | [] => [[c]]
    | g :: gs => if c = sep then [] :: g :: gs else (c :: g) :: gs

/-- Model of Go `strings.Split` with a one-character separator. -/
def goSplit (s : String) (sep : Char) : List String :=
  (splitOnCharList sep s.data).map String.mk

/-- Model of Go `filepath.Base`. -/
def filepathBase (path : String) : String :=
  if path = "" then "." else
  let cs := (path.data.reverse.dropWhile (fun c => c = '/')).reverse
  if cs = [] then "/" else
  String.mk ((cs.reverse.takeWhile (fun c => c ≠ '/')).reverse)

/-! ## Model of Go `net` IP addresses -/

/-- A 4-byte IPv4 address, the result of a successful `IP.To4`. -/
structure IPv4Quad where
  a : Nat
  b : Nat
  c : Nat
  d : Nat
  deriving DecidableEq, Repr

/-- Bytes are in range, as Go's `byte` type guarantees. -/
def IPv4Quad.wf (q : IPv4Quad) : Prop :=
  q.a < 256 ∧ q.b < 256 ∧ q.c < 256 ∧ q.d < 256

instance (q : IPv4Quad) : Decidable q.wf := by
  unfold IPv4Quad.wf; infer_instance

/-- Big-endian 32-bit integer interpretation of an IPv4 address. -/
def IPv4Quad.val (q : IPv4Quad) : Nat :=
  q.a * 2 ^ 24 + q.b * 2 ^ 16 + q.c * 2 ^ 8 + q.d

/-- Model of Go `net.IP`: a byte slice of length 4 or 16. -/
structure IP where
  bytes : List Nat
  deriving DecidableEq, Repr

/-- Model of Go `IP.To4`: the 4-byte form of a 4-byte address or of a
16-byte IPv4-mapped address, `none` otherwise. -/
def IP.to4 (ip : IP) : Option IPv4Quad :=
  match ip.bytes with
  | [a, b, c, d] => some ⟨a, b, c, d⟩
  | [0, 0, 0, 0, 0, 0, 0, 0, 0, 0, 255, 255, a, b, c, d] => some ⟨a, b, c, d⟩
  | _ => none

/-- Model of the Go `net.IPv4` constructor: the 16-byte IPv4-mapped form. -/
def goIPv4 (a b c d : Nat) : IP :=
  ⟨[0, 0, 0, 0, 0, 0, 0, 0, 0, 0, 255, 255, a, b, c, d]⟩

/-- The 16-byte form of a 4-byte address. -/
def goIPv4Quad (q : IPv4Quad) : IP :=
  goIPv4 q.a q.b q.c q.d

/-- Model of Go `net.IPNet`: base address and mask. -/
structure IPNet where
  ip : IP
  mask : List Nat
  deriving DecidableEq, Repr

/-- Model of the Go `networkNumberAndMask` helper used by `IPNet.Contains`:
aligns the network base address and the mask to a common 4- or 16-byte
length, `none` when the combination is unusable. -/
def networkNumberAndMask (n : IPNet) : Option (List Nat × List Nat) :=
  match n.ip.to4 with
  | some q =>
      let ip := [q.a, q.b, q.c, q.d]
      if n.mask.length = 4 then some (ip, n.mask)
      else if n.mask.length = 16 then some (ip, n.mask.drop 12)
      else none
  | none =>
      if n.ip.bytes.length = 16 then
        if n.mask.length = 16 then some (n.ip.bytes, n.mask)
        else none
      else none

/-- Model of Go `IPNet.Contains`: bytewise `base &&& mask = ip &&& mask`
after aligning lengths. -/
def ipnetContains (n : IPNet) (x : IP) : Bool :=
  match networkNumberAndMask n with
  | none => false
  | some (nn, m) =>
      let xb := match x.to4 with
                | some q => [q.a, q.b, q.c, q.d]
                | none => x.bytes
      decide (xb.length = nn.length) &&
      decide (List.zipWith (fun p q => p &&& q) nn m
               = List.zipWith (fun p q => p &&& q) xb m)

/-- Whether a dotted-quad field is valid for Go `net.ParseIP`: nonempty,
decimal, no leading zero, value at most 255. -/
def v4FieldOk (s : List Char) : Bool :=
  s ≠ [] && s.all Char.isDigit && (s.length = 1 || s.head? ≠ some '0')
    && decide (digitsToNat s ≤ 255)

/-- Model of the Go dotted-quad IPv4 parser (`net.ParseIP` for strings whose
first separator is `'.'`). -/
def parseIPv4 (s : String) : Option IP :=
  match goSplit s '.' with
  | [f1, f2, f3, f4] =>
      if (v4FieldOk f1.data && v4FieldOk f2.data
            && v4FieldOk f3.data && v4FieldOk f4.data) = true then
        some (goIPv4 (digitsToNat f1.data) (digitsToNat f2.data)
                (digitsToNat f3.data) (digitsToNat f4.data))
      else none
  | _ => none

/-- Value of a hexadecimal digit character. -/
def hexDigitVal (c : Char) : Option Nat :=
  if '0' ≤ c ∧ c ≤ '9' then some (c.toNat - '0'.toNat)
  else if 'a' ≤ c ∧ c ≤ 'f' then some (c.toNat - 'a'.toNat + 10)
  else if 'A' ≤ c ∧ c ≤ 'F' then some (c.toNat - 'A'.toNat + 10)
  else none

/-- One `h16` group of an IPv6 literal: one to four hexadecimal digits. -/
def hexGroupVal (s : String) : Option Nat :=
  if s.data ≠ [] ∧ s.data.length ≤ 4 ∧ s.data.all (fun c => (hexDigitVal c).isSome) then
    some (s.data.foldl (fun acc c => acc * 16 + (hexDigitVal c).getD 0) 0)
  else none

/-- The 16 bytes of a list of 16-bit groups. -/
def groupsToBytes (gs : List Nat) : List Nat :=
  (gs.map (fun g => [g / 256 % 256, g % 256])).flatten

/-- Model of the standard-library IPv6 parser: hexadecimal groups separated
by `':'` with at most one `'::'` expansion; the embedded-IPv4 tail form is
not modelled (no use in the file depends on it). -/
def parseIPv6 (s : String) : Option IP :=
  match s.splitOn "::" with
  | [whole] =>
      match (whole.splitOn ":").mapM hexGroupVal with
      | some gs => if gs.length = 8 then some ⟨groupsToBytes gs⟩ else none
      | none => none
  | [l, r] =>
      let lparts := if l = "" then [] else l.splitOn ":"
      let rparts := if r = "" then [] else r.splitOn ":"
      match lparts.mapM hexGroupVal, rparts.mapM hexGroupVal with
      | some lg, some rg =>
          if lg.length + rg.length ≤ 7 then
            some ⟨groupsToBytes (lg ++ List.replicate (8 - lg.length - rg.length) 0 ++ rg)⟩
          else none
      | _, _ => none
  | _ => none

/-- Model of Go `net.ParseIP`: the first of `'.'` or `':'` to occur selects
the dotted-quad or the IPv6 parser; a string with neither is not an IP. -/
def parseIP (s : String) : Option IP :=
  match s.data.find? (fun c => c = '.' || c = ':') with
  | some c => if c = '.' then parseIPv4 s else parseIPv6 s
  | none => none

/-- Model of Go `net.CIDRMask`: `ones` leading one-bits in `size` bytes. -/
def cidrMask (ones size : Nat) : List Nat :=
  (List.range size).map (fun i =>
    let bits := min 8 (ones - min ones (8 * i))
    256 - 2 ^ (8 - bits))

/-- Bytewise application of a mask to address bytes (Go `IP.Mask`). -/
def maskBytes (ipb m : List Nat) : List Nat :=
  List.zipWith (fun a b => a &&& b) ipb m

/-- Model of Go `net.ParseCIDR`: returns the parsed address and the network
(masked base plus mask) for `addr/prefixlen`. -/
def parseCIDR (s : String) : Option (IP × IPNet) :=
  match s.data.span (fun c => c ≠ '/') with
  | (_, []) => none
  | (addr, _ :: mstr) =>
      match parseIP (String.mk addr) with
      | none => none
      | some ip =>
          let iplen : Nat := match ip.to4 with | some _ => 4 | none => 16
          if mstr ≠ [] ∧ mstr.all Char.isDigit ∧ (mstr.length = 1 ∨ mstr.head? ≠ some '0')
              ∧ digitsToNat mstr ≤ 8 * iplen then
            let mask := cidrMask (digitsToNat mstr) iplen
            let base : List Nat := match ip.to4 with
              | some q => maskBytes [q.a, q.b, q.c, q.d] mask
              | none => maskBytes ip.bytes mask
            some (ip, ⟨⟨base⟩, mask⟩)
          else none

/-! ## Data model of the file -/

/-- Feature set probed from the slirp4netns `--help` output
(`checkSlirpFlags`). -/
structure slirpFeatures where
  HasDisableHostLoopback : Bool
  HasMTU : Bool
  HasEnableSandbox : Bool
  HasEnableSeccomp : Bool
  HasCIDR : Bool
  HasOutboundAddr : Bool
  HasIPv6 : Bool
  deriving DecidableEq, Repr

/-- Validated network options (`slirp4netnsNetworkOptions`). -/
structure slirp4netnsNetworkOptions where
  cidr : String
  disableHostLoopback : Bool
  enableIPv6 : Bool
  isSlirpHostForward : Bool
  noPivotRoot : Bool
  mtu : Int
  outboundAddr : String
  outboundAddr6 : String
  deriving DecidableEq, Repr

/-- Modelled from the spec: the fixed platform-default MTU constant
(`slirp4netnsMTU`), defined outside the provided source file. -/
def slirp4netnsMTU : Int := 65520

/-- Modelled from the spec: the fixed default slirp4netns subnet constant
(`defaultSlirp4netnsSubnet`), defined outside the provided source file; the
well-known offsets .2/.3/.100 of section 3 of the spec live inside it. -/
def defaultSlirp4netnsSubnet : String := "10.0.2.0/24"

/-! ## Option Parser (`parseSlirp4netnsNetworkOptions`) -/

/-- One iteration of the option loop of `parseSlirp4netnsNetworkOptions`:
splits `o` at the first `'='` and dispatches on the key, validating the
value.  `ifaces` models the set of host interface names visible to
`net.InterfaceByName`. -/
def applyOption (ifaces : List String) (s : slirp4netnsNetworkOptions) (o : String) :
    Except String slirp4netnsNetworkOptions :=
  match splitEq2 o with
  | none => .error ("unknown option for slirp4netns: " ++ goQuote o)
  | some (option, value) =>
    match option with
    | "cidr" =>
        match parseCIDR value with
        | some (ipv4, _) =>
            if ipv4.to4 = none then .error ("invalid cidr " ++ goQuote value)
            else .ok { s with cidr := value }
        | none => .error ("invalid cidr " ++ goQuote value)
    | "port_handler" =>
        match value with
        | "slirp4netns" => .ok { s with isSlirpHostForward := true }
        | "rootlesskit" => .ok { s with isSlirpHostForward := false }
        | _ => .error ("unknown port_handler for slirp4netns: " ++ goQuote value)
    | "allow_host_loopback" =>
        match value with
        | "true" => .ok { s with disableHostLoopback := false }
        | "false" => .ok { s with disableHostLoopback := true }
        | _ => .error ("invalid value of allow_host_loopback for slirp4netns: " ++ goQuote value)
    | "enable_ipv6" =>
        match value with
        | "true" => .ok { s with enableIPv6 := true }
        | "false" => .ok { s with enableIPv6 := false }
        | _ => .error ("invalid value of enable_ipv6 for slirp4netns: " ++ goQuote value)
    | "outbound_addr" =>
        match parseIP value with
        | some ip =>
            if ip.to4 = none then
              if ifaces.contains value then .ok { s with outboundAddr := value }
              else .error ("invalid outbound_addr " ++ goQuote value)
            else .ok { s with outboundAddr := value }
        | none =>
            if ifaces.contains value then .ok { s with outboundAddr := value }
            else .error ("invalid outbound_addr " ++ goQuote value)
    | "outbound_addr6" =>
        match parseIP value with
        | some ip =>
            if ip.to4 ≠ none then
              if ifaces.contains value then .ok { s with outboundAddr6 := value }
              else .error ("invalid outbound_addr6: " ++ goQuote value)
            else .ok { s with outboundAddr6 := value }
        | none =>
            if ifaces.contains value then .ok { s with outboundAddr6 := value }
            else .error ("invalid outbound_addr6: " ++ goQuote value)
    | "mtu" =>
        match goAtoi value with
        | some n =>
            if n < 68 then .error ("invalid mtu " ++ goQuote value)
            else .ok { s with mtu := n }
        | none => .error ("invalid mtu " ++ goQuote value)
    | _ => .error ("unknown option for slirp4netns: " ++ goQuote o)

/-- The option loop: fold `applyOption` over the merged option list,
failing fast on the first invalid entry. -/
def parseLoop (ifaces : List String) (s : slirp4netnsNetworkOptions) :
    List String → Except String slirp4netnsNetworkOptions
  | [] => .ok s
  | o :: rest =>
    match applyOption ifaces s o with
    | .ok s' => parseLoop ifaces s' rest
    | .error e => .error e

/-- Model of `parseSlirp4netnsNetworkOptions`: the global
`NetworkCmdOptions` and the per-container `extraOptions` are concatenated
in that order and folded over the defaults (host loopback disabled, default
MTU, pivot-root policy inherited, IPv6 enabled). -/
def parseSlirp4netnsNetworkOptions (networkCmdOptions : List String)
    (noPivotRoot : Bool) (ifaces : List String) (extraOptions : List String) :
    Except String slirp4netnsNetworkOptions :=
  parseLoop ifaces
    { cidr := ""
      disableHostLoopback := true
      enableIPv6 := true
      isSlirpHostForward := false
      noPivotRoot := noPivotRoot
      mtu := slirp4netnsMTU
      outboundAddr := ""
      outboundAddr6 := "" }
    (networkCmdOptions ++ extraOptions)

/-- Value a parsed option stores in the `slirp4netnsNetworkOptions`
struct (string-, boolean-, or integer-valued field). -/
inductive FieldVal where
  | str (v : String)
  | bool (v : Bool)
  | int (v : Int)
  deriving DecidableEq, Repr

/-- The field of the options struct owned by a given option key. -/
def getField (s : slirp4netnsNetworkOptions) (k : String) : Option FieldVal :=
  match k with
  | "cidr" => some (.str s.cidr)
  | "port_handler" => some (.bool s.isSlirpHostForward)
  | "allow_host_loopback" => some (.bool s.disableHostLoopback)
  | "enable_ipv6" => some (.bool s.enableIPv6)
  | "outbound_addr" => some (.str s.outboundAddr)
  | "outbound_addr6" => some (.str s.outboundAddr6)
  | "mtu" => some (.int s.mtu)
  | _ => none

/-- The value a single `key=value` option string contributes to its field
when valid (`none` when invalid or unknown); the per-key validation mirrors
`applyOption`, whose stored value never depends on the current state. -/
def interpOpt (ifaces : List String) (o : String) : Option FieldVal :=
  match splitEq2 o with
  | none => none
  | some (option, value) =>
    match option with
    | "cidr" =>
        match parseCIDR value with
        | some (ipv4, _) => if ipv4.to4 = none then none else some (.str value)
        | none => none
    | "port_handler" =>
        match value with
        | "slirp4netns" => some (.bool true)
        | "rootlesskit" => some (.bool false)
        | _ => none
    | "allow_host_loopback" =>
        match value with
        | "true" => some (.bool false)
        | "false" => some (.bool true)
        | _ => none
    | "enable_ipv6" =>
        match value with
        | "true" => some (.bool true)
        | "false" => some (.bool false)
        | _ => none
    | "outbound_addr" =>
        match parseIP value with
        | some ip =>
            if ip.to4 = none then
              if ifaces.contains value then some (.str value) else none
            else some (.str value)
        | none => if ifaces.contains value then some (.str value) else none
    | "outbound_addr6" =>
        match parseIP value with
        | some ip =>
            if ip.to4 ≠ none then
              if ifaces.contains value then some (.str value) else none
            else some (.str value)
        | none => if ifaces.contains value then some (.str value) else none
    | "mtu" =>
        match goAtoi value with
        | some n => if n < 68 then none else some (.int n)
        | none => none
    | _ => none

/-! ## Argument Builder (`createBasicSlirp4netnsCmdArgs`) -/

/-- Model of `createBasicSlirp4netnsCmdArgs`: assembles the argument vector
from the validated options and the probed feature set, with the same guard
structure as the source (each `if requested then if unsupported then error`
block is flattened into a guard followed by a conditional append). -/
def createBasicSlirp4netnsCmdArgs (options : slirp4netnsNetworkOptions)
    (features : slirpFeatures) : Except String (List String) :=
  let cmdArgs : List String := []
  let cmdArgs := cmdArgs ++ (if options.disableHostLoopback ∧ features.HasDisableHostLoopback
    then ["--disable-host-loopback"] else [])
  let cmdArgs := cmdArgs ++ (if options.mtu > -1 ∧ features.HasMTU
    then ["--mtu=" ++ toString options.mtu] else [])
  let cmdArgs := cmdArgs ++ (if ¬options.noPivotRoot ∧ features.HasEnableSandbox
    then ["--enable-sandbox"] else [])
  let cmdArgs := cmdArgs ++ (if features.HasEnableSeccomp
    then ["--enable-seccomp"] else [])
  if options.cidr ≠ "" ∧ ¬features.HasCIDR then .error "cidr not supported" else
  let cmdArgs := cmdArgs ++ (if options.cidr ≠ ""
    then ["--cidr=" ++ options.cidr] else [])
  if options.enableIPv6 ∧ ¬features.HasIPv6 then .error "enable_ipv6 not supported" else
  let cmdArgs := cmdArgs ++ (if options.enableIPv6
    then ["--enable-ipv6"] else [])
  if options.outboundAddr ≠ "" ∧ ¬features.HasOutboundAddr
    then .error "outbound_addr not supported" else
  let cmdArgs := cmdArgs ++ (if options.outboundAddr ≠ ""
    then ["--outbound-addr=" ++ options.outboundAddr] else [])
  if options.outboundAddr6 ≠ "" ∧ (¬features.HasOutboundAddr ∨ ¬features.HasIPv6)
    then .error "outbound_addr6 not supported" else
  if options.outboundAddr6 ≠ "" ∧ ¬options.enableIPv6
    then .error "enable_ipv6=true is required for outbound_addr6" else
  let cmdArgs := cmdArgs ++ (if options.outboundAddr6 ≠ ""
    then ["--outbound-addr6=" ++ options.outboundAddr6] else [])
  .ok cmdArgs

/-! ## IP Arithmetic (`addToIP` and the `GetSlirp4netns*` wrappers) -/

/-- Error cases of `addToIP`.  `nilTo4Panic` models the Go behaviour of
indexing the `nil` result of `To4` on a non-IPv4 subnet base, which
panics; in this total embedding it is a distinguished error value. -/
inductive AddToIPErr where
  | nilTo4Panic
  | overflow
  | notInSubnet
  deriving DecidableEq, Repr

/-- The four bytes Go extracts from a `uint32` in `addToIP`
(`byte(x>>24)`, `byte(x>>16&0xFF)`, `byte(x>>8)&0xFF`, `byte(x&0xFF)`). -/
def bytesOfUInt32 (n : Nat) : IPv4Quad :=
  ⟨(n >>> 24) % 256, ((n >>> 16) &&& 0xFF) % 256,
   ((n >>> 8) % 256) &&& 0xFF, (n &&& 0xFF) % 256⟩

/-- Model of `addToIP`: interpret the subnet base as a big-endian `uint32`,
add the offset with 32-bit semantics, fail on wrap-around, rebuild the
address, and fail when it is not inside the subnet. -/
def addToIP (subnet : IPNet) (offset : Nat) : Except AddToIPErr IP :=
  match subnet.ip.to4 with
  | none => .error .nilTo4Panic
  | some q =>
    let ipInteger := (q.d ||| q.c <<< 8 ||| q.b <<< 16 ||| q.a <<< 24) % 2 ^ 32
    let ipNewRaw := (ipInteger + offset % 2 ^ 32) % 2 ^ 32
    if ipNewRaw < ipInteger then .error .overflow
    else
      let ipNew := goIPv4Quad (bytesOfUInt32 ipNewRaw)
      if ipnetContains subnet ipNew then .ok ipNew else .error .notInSubnet

/-- The default subnet as an `IPNet` (`net.ParseCIDR(defaultSlirp4netnsSubnet)`,
whose error is discarded by the source). -/
def defaultSlirp4netnsIPNet : IPNet :=
  match parseCIDR defaultSlirp4netnsSubnet with
  | some p => p.2
  | none => ⟨⟨[]⟩, []⟩

/-- Model of `GetSlirp4netnsIP`: guest address at offset 100. -/
def GetSlirp4netnsIP (subnet : Option IPNet) : Except AddToIPErr IP :=
  addToIP (match subnet with | some s => s | none => defaultSlirp4netnsIPNet) 100

/-- Model of `GetSlirp4netnsGateway`: gateway address at offset 2. -/
def GetSlirp4netnsGateway (subnet : Option IPNet) : Except AddToIPErr IP :=
  addToIP (match subnet with | some s => s | none => defaultSlirp4netnsIPNet) 2

/-- Model of `GetSlirp4netnsDNS`: DNS address at offset 3. -/
def GetSlirp4netnsDNS (subnet : Option IPNet) : Except AddToIPErr IP :=
  addToIP (match subnet with | some s => s | none => defaultSlirp4netnsIPNet) 3

/-! ## Readiness Barrier (`waitForSync`)

The loop of `waitForSync` performs one bounded-deadline read per iteration
and, on deadline expiry, one non-blocking `Wait4`.  Each iteration is
embedded as one trace event; the function below consumes the trace until
the loop decides, returning `none` when the trace ends with the loop still
polling. -/

/-- Outcome of the non-blocking `syscall.Wait4` check of one iteration. -/
inductive Wait4Outcome where
  | waitError (msg : String)
  | wrongPid
  | exited (logRead : Except String String)
  | signaled
  | stopped
  deriving DecidableEq, Repr

/-- One iteration of the `waitForSync` loop: the deadline set, the pipe
read, and (on timeout) the process-status check. -/
inductive SyncEvent where
  | deadlineFailed (msg : String)
  | readByte
  | readTimeout (w : Wait4Outcome)
  | readFailed (msg : String)
  deriving DecidableEq, Repr

/-- The error cases of `waitForSync`; `renderSyncErr` gives the exact Go
error message of each. -/
inductive SyncErr where
  | deadline (msg : String)
  | waitStatus (msg : String)
  | logRead (msg : String)
  | exitedWithLog (logContent : String)
  | killedBySignal
  | readFailed (msg : String)
  deriving DecidableEq, Repr

/-- The `fmt.Errorf` message of each `waitForSync` error. -/
def renderSyncErr (prog : String) : SyncErr → String
  | .deadline m => "setting " ++ prog ++ " pipe timeout: " ++ m
  | .waitStatus m => "failed to read " ++ prog ++ " process status: " ++ m
  | .logRead m => prog ++ " failed: " ++ m
  | .exitedWithLog log => prog ++ " failed: " ++ goQuote log
  | .killedBySignal => prog ++ " killed by signal"
  | .readFailed m => "failed to read from " ++ prog ++ " sync pipe: " ++ m

/-- The program name `waitForSync` reports: `cmd.Args[0]` when present,
else the basename of `cmd.Path`. -/
def progName (path : String) (args : List String) : String :=
  match args with
  | a :: _ => a
  | [] => filepathBase path

/-- Model of the `waitForSync` loop over a trace of its per-iteration
events: a received byte is success; on timeout the wait status decides
(normal exit surfaces the captured log, a signal is its own error, a live
or stopped child means poll again); read and deadline errors abort. -/
def waitForSync : List SyncEvent → Option (Except SyncErr Unit)
  | [] => none
  | e :: rest =>
    match e with
    | .deadlineFailed m => some (.error (.deadline m))
    | .readByte => some (.ok ())
    | .readFailed m => some (.error (.readFailed m))
    | .readTimeout w =>
      match w with
      | .waitError m => some (.error (.waitStatus m))
      | .wrongPid => waitForSync rest
      | .exited (.error m) => some (.error (.logRead m))
      | .exited (.ok log) => some (.error (.exitedWithLog log))
      | .signaled => some (.error .killedBySignal)
      | .stopped => waitForSync rest

/-- Events on which the `waitForSync` loop keeps polling. -/
def SyncEvent.nondecisive : SyncEvent → Bool
  | .readTimeout .wrongPid => true
  | .readTimeout .stopped => true
  | _ => false

/-! ## Port-Forward Backend A (`setupRootlessPortMappingViaSlirp`) -/

/-- A port mapping as produced by `convertPortMappings`
(`types.PortMapping`): the protocol field may hold several comma-separated
protocols, and `Range` sequential pairs start at the two base ports. -/
structure PortMapping where
  Protocol : String
  HostIP : String
  HostPort : Nat
  ContainerPort : Nat
  Range : Nat
  deriving DecidableEq, Repr

/-- Wire argument of one control-socket command (`slirp4netnsCmdArg`). -/
structure slirp4netnsCmdArg where
  Proto : String
  HostAddr : String
  HostPort : Nat
  GuestAddr : String
  GuestPort : Nat
  deriving DecidableEq, Repr

/-- One control-socket command (`slirp4netnsCmd`). -/
structure slirp4netnsCmd where
  Execute : String
  Args : slirp4netnsCmdArg
  deriving DecidableEq, Repr

/-- The command `openSlirp4netnsPort` marshals for one forwarded port
(`add_hostfwd`, guest address left empty). -/
def mkHostFwdCmd (proto hostip : String) (hostport guestport : Nat) : slirp4netnsCmd :=
  { Execute := "add_hostfwd"
    Args := { Proto := proto, HostAddr := hostip, HostPort := hostport,
              GuestAddr := "", GuestPort := guestport } }

/-- The inner range loop of `setupRootlessPortMappingViaSlirp`
(`for i := uint16(0); i < port.Range; i++`), with 16-bit port addition;
`sock` models the control-socket exchange of `openSlirp4netnsPort` and the
returned list collects the commands issued, in order, up to the first
failure. -/
def hostFwdRangeLoop (sock : slirp4netnsCmd → Bool) (proto hostIP : String)
    (hostPort containerPort : Nat) : Nat → Nat → List slirp4netnsCmd × Bool
  | _, 0 => ([], true)
  | i, n + 1 =>
    let cmd := mkHostFwdCmd proto hostIP ((hostPort + i) % 65536) ((containerPort + i) % 65536)
    if sock cmd then
      let r := hostFwdRangeLoop sock proto hostIP hostPort containerPort (i + 1) n
      (cmd :: r.1, r.2)
    else ([cmd], false)

/-- The middle loop over the comma-separated protocols of one mapping. -/
def hostFwdProtoLoop (sock : slirp4netnsCmd → Bool) (hostIP : String)
    (hostPort containerPort range : Nat) : List String → List slirp4netnsCmd × Bool
  | [] => ([], true)
  | proto :: rest =>
    let r := hostFwdRangeLoop sock proto hostIP hostPort containerPort 0 range
    if r.2 then
      let r2 := hostFwdProtoLoop sock hostIP hostPort containerPort range rest
      (r.1 ++ r2.1, r2.2)
    else (r.1, false)

/-- Model of the command-issuing loop of `setupRootlessPortMappingViaSlirp`:
outer loop over the mappings in order, middle loop over each mapping's
protocols, inner loop over the range offsets; an empty host IP defaults to
`0.0.0.0`. -/
def setupRootlessPortMappingViaSlirp (sock : slirp4netnsCmd → Bool) :
    List PortMapping → List slirp4netnsCmd × Bool
  | [] => ([], true)
  | port :: rest =>
    let protocols := goSplit port.Protocol ','
    let hostIP := if port.HostIP = "" then "0.0.0.0" else port.HostIP
    let r := hostFwdProtoLoop sock hostIP port.HostPort port.ContainerPort port.Range protocols
    if r.2 then
      let r2 := setupRootlessPortMappingViaSlirp sock rest
      (r.1 ++ r2.1, r2.2)
    else (r.1, false)

/-! ## DAD Sysctl Coordinator (`setupSlirp4netns`, lines 311-377) -/

/-- Model of `os.ReadFile` on the sysctl file: the file state is its
current content, or `none` when it does not exist (`os.ErrNotExist`). -/
def readSysctl (fs : Option String) : Except Unit String :=
  match fs with
  | some v => .ok v
  | none => .error ()

/-- Model of `os.WriteFile` on the sysctl file. -/
def writeSysctl (_fs : Option String) (v : String) : Option String :=
  some v

/-- Result of the DAD coordination: the sysctl state after the whole setup,
the writes the background task attempted in order, and the error it would
log (never propagated). -/
structure DadResult where
  file : Option String
  writes : List String
  loggedErr : Option String
  deriving DecidableEq, Repr

/-- The background task of the DAD coordinator, sequentialised by the two
wait groups: read the sysctl (absence is a clean no-write exit), write
`"0"`, release `netnsReady`; after the launcher resolves helper readiness
and releases `slirpReady`, restore the captured original value. -/
def dadSysctlCoordinator (fs : Option String) : DadResult :=
  match readSysctl fs with
  | .error _ => { file := fs, writes := [], loggedErr := none }
  | .ok orgValue =>
      let fs1 := writeSysctl fs "0"
      let fs2 := writeSysctl fs1 orgValue
      { file := fs2, writes := ["0", orgValue], loggedErr := none }

/-- The IPv6 portion of `setupSlirp4netns` around the helper launch: the
coordinator runs only when IPv6 is enabled, and `slirpReady` is released on
every path (start failure, readiness failure, readiness success), so the
background task always completes its restore before the setup returns. -/
def setupSlirp4netnsDad (enableIPv6 : Bool) (fs : Option String)
    (startOk syncOk : Bool) : DadResult × Bool :=
  if enableIPv6 then (dadSysctlCoordinator fs, startOk && syncOk)
  else ({ file := fs, writes := [], loggedErr := none }, startOk && syncOk)

/-! ## Reload Protocol (`reloadRootlessRLKPortMapping`) -/

/-- Externally observable actions of one reload call, in order. -/
inductive ReloadAction where
  | computeChildIP
  | openSocket
  | writeChildIP
  | readResponse
  deriving DecidableEq, Repr

/-- Environment of one reload call: outcome of opening the unix socket, of
the JSON encode/write of the child IP, and of reading the full response. -/
structure ReloadEnv where
  connect : Except String Unit
  encodeWrite : Except String Unit
  readAll : Except String String
  deriving Repr

/-- Model of `reloadRootlessRLKPortMapping`: nothing to do without port
mappings; otherwise recompute the child IP, connect to the reload socket,
send the child IP, read the whole response and require it to equal `"OK"`;
any other response is the error detail, with no retry. -/
def reloadRootlessRLKPortMapping (portMappings : List PortMapping)
    (env : ReloadEnv) : Except String Unit × List ReloadAction :=
  if portMappings.length = 0 then (.ok (), [])
  else
    let acts := [ReloadAction.computeChildIP, ReloadAction.openSocket]
    match env.connect with
    | .error e =>
        (.error ("could not reload rootless port mappings, port forwarding may no longer work correctly: " ++ e), acts)
    | .ok _ =>
      let acts := acts ++ [ReloadAction.writeChildIP]
      match env.encodeWrite with
      | .error e => (.error ("port reloading failed: " ++ e), acts)
      | .ok _ =>
        let acts := acts ++ [ReloadAction.readResponse]
        match env.readAll with
        | .error e => (.error ("port reloading failed: " ++ e), acts)
        | .ok data =>
          if data = "OK" then (.ok (), acts)
          else (.error ("port reloading failed: " ++ data), acts)

/-! ## Helper lemmas -/

/-- Characters reproduced verbatim by the quoting model are unescaped. -/
theorem quoteChar_plain {c : Char} (h : plainChar c = true) : quoteChar c = [c] := by
  simp only [plainChar, Bool.and_eq_true, decide_eq_true_eq] at h
  obtain ⟨⟨⟨h1, h2⟩, h3⟩, h4⟩ := h
  have hn : ¬ c = '\n' := by rintro rfl; exact absurd h1 (by decide)
  have ht : ¬ c = '\t' := by rintro rfl; exact absurd h1 (by decide)
  have hr : ¬ c = '\r' := by rintro rfl; exact absurd h1 (by decide)
  unfold quoteChar
  rw [if_neg h3, if_neg h4, if_neg hn, if_neg ht, if_neg hr, if_pos ⟨h1, h2⟩]

/-- Quoting a string of plain characters just wraps it in quotes. -/
theorem goQuote_plain {s : String} (h : s.data.all plainChar = true) :
    goQuote s = "\"" ++ s ++ "\"" := by
  have key : ∀ l : List Char, l.all plainChar = true → (l.map quoteChar).flatten = l := by
    intro l hl
    induction l with
    | nil => rfl
    | cons c cs ih =>
        simp only [List.all_cons, Bool.and_eq_true] at hl
        simp [quoteChar_plain hl.1, ih hl.2]
  unfold goQuote
  rw [key s.data h]

/-- The `waitForSync` loop keeps polling across nondecisive events. -/
theorem waitForSync_skip {pre : List SyncEvent}
    (h : pre.all SyncEvent.nondecisive = true) (rest : List SyncEvent) :
    waitForSync (pre ++ rest) = waitForSync rest := by
  induction pre with
  | nil => rfl
  | cons e es ih =>
      simp only [List.all_cons, Bool.and_eq_true] at h
      obtain ⟨he, hes⟩ := h
      cases e with
      | deadlineFailed m => simp [SyncEvent.nondecisive] at he
      | readByte => simp [SyncEvent.nondecisive] at he
      | readFailed m => simp [SyncEvent.nondecisive] at he
      | readTimeout w =>
          cases w with
          | waitError m => simp [SyncEvent.nondecisive] at he
          | exited lr => simp [SyncEvent.nondecisive] at he
          | signaled => simp [SyncEvent.nondecisive] at he
          | wrongPid => simpa only [List.cons_append, waitForSync] using ih hes
          | stopped => simpa only [List.cons_append, waitForSync] using ih hes

/-- The option loop distributes over list concatenation. -/
theorem parseLoop_append (ifs : List String) (s : slirp4netnsNetworkOptions)
    (xs ys : List String) :
    parseLoop ifs s (xs ++ ys)
      = match parseLoop ifs s xs with
        | .ok s2 => parseLoop ifs s2 ys
        | .error e => .error e := by
  induction xs generalizing s with
  | nil => rfl
  | cons o rest ih =>
      simp only [List.cons_append, parseLoop]
      cases applyOption ifs s o with
      | ok s2 => exact ih s2
      | error e => rfl

/-- A successfully applied option sets its own field to the
state-independent value `interpOpt` computes from the option string. -/
theorem applyOption_ok_getField {ifs : List String}
    {s s2 : slirp4netnsNetworkOptions} {o : String}
    (h : applyOption ifs s o = .ok s2) :
    getField s2 (keyOf o) = interpOpt ifs o := by
  cases hsp : splitEq2 o with
  | none => simp only [applyOption, hsp] at h; exact Except.noConfusion h
  | some kv =>
      obtain ⟨k, v⟩ := kv
      simp only [applyOption, hsp] at h
      have hko : keyOf o = k := by simp [keyOf, hsp]
      rw [hko]
      simp only [interpOpt, hsp]
      repeat' split at h
      all_goals first
        | exact Except.noConfusion h
        | (injection h with h2; subst h2; simp_all [getField])

/-- A successfully applied option leaves every other key's field
unchanged. -/
theorem applyOption_ok_frame {ifs : List String}
    {s s2 : slirp4netnsNetworkOptions} {o : String}
    (h : applyOption ifs s o = .ok s2) {k : String} (hk : keyOf o ≠ k) :
    getField s2 k = getField s k := by
  cases hsp : splitEq2 o with
  | none => simp only [applyOption, hsp] at h; exact Except.noConfusion h
  | some kv =>
      obtain ⟨ko, v⟩ := kv
      simp only [applyOption, hsp] at h
      have hko : keyOf o = ko := by simp [keyOf, hsp]
      rw [hko] at hk
      repeat' split at h
      all_goals first
        | exact Except.noConfusion h
        | (injection h with h2; subst h2; unfold getField; split <;> simp_all)

/-- A successful run of the option loop over entries that never mention
key `k` leaves `k`'s field unchanged. -/
theorem parseLoop_frame {ifs : List String} {k : String} :
    ∀ (l : List String) (s s2 : slirp4netnsNetworkOptions),
      (∀ o ∈ l, keyOf o ≠ k) → parseLoop ifs s l = .ok s2 →
      getField s2 k = getField s k := by
  intro l
  induction l with
  | nil =>
      intro s s2 _ h
      simp only [parseLoop] at h
      injection h with h2
      subst h2
      rfl
  | cons o rest ih =>
      intro s s2 hl h
      simp only [parseLoop] at h
      cases ha : applyOption ifs s o with
      | error e => simp only [ha] at h; exact Except.noConfusion h
      | ok s1 =>
          simp only [ha] at h
          have h1 := applyOption_ok_frame ha (hl o (by simp))
          have h2 := ih s1 s2 (fun o2 ho2 => hl o2 (by simp [ho2])) h
          rw [h2, h1]

/-- After a successful parse, the field of key `keyOf o2` holds the value
of `o2` whenever `o2` is the last entry for that key. -/
theorem parseLoop_last_wins {ifs : List String}
    {s0 res : slirp4netnsNetworkOptions} {pre l3 : List String} {o2 : String}
    (h3 : ∀ o ∈ l3, keyOf o ≠ keyOf o2)
    (hres : parseLoop ifs s0 (pre ++ o2 :: l3) = .ok res) :
    getField res (keyOf o2) = interpOpt ifs o2 := by
  rw [parseLoop_append] at hres
  cases hA : parseLoop ifs s0 pre with
  | error e => simp only [hA] at hres; exact Except.noConfusion hres
  | ok sA =>
      simp only [hA, parseLoop] at hres
      cases hB : applyOption ifs sA o2 with
      | error e => simp only [hB] at hres; exact Except.noConfusion hres
      | ok sB =>
          simp only [hB] at hres
          have h1 := applyOption_ok_getField hB
          have h2 := parseLoop_frame l3 sB res h3 hres
          rw [h2, h1]

/-- The inner range loop with an always-successful socket issues one
command per offset, in offset order. -/
theorem hostFwdRangeLoop_all (proto hostIP : String) (hp cp : Nat) :
    ∀ n i : Nat,
      hostFwdRangeLoop (fun _ => true) proto hostIP hp cp i n
        = ((List.range n).map (fun j =>
            mkHostFwdCmd proto hostIP ((hp + (i + j)) % 65536)
              ((cp + (i + j)) % 65536)), true) := by
  intro n
  induction n with
  | zero => intro i; rfl
  | succ n ih =>
      intro i
      have hstep : hostFwdRangeLoop (fun _ => true) proto hostIP hp cp i (n + 1)
          = (mkHostFwdCmd proto hostIP ((hp + i) % 65536) ((cp + i) % 65536)
              :: (hostFwdRangeLoop (fun _ => true) proto hostIP hp cp (i + 1) n).1,
             (hostFwdRangeLoop (fun _ => true) proto hostIP hp cp (i + 1) n).2) := rfl
      rw [hstep, ih (i + 1), List.range_succ_eq_map, List.map_cons, List.map_map]
      have htail : (List.range n).map
            (fun j => mkHostFwdCmd proto hostIP ((hp + (i + 1 + j)) % 65536)
              ((cp + (i + 1 + j)) % 65536))
          = (List.range n).map
            ((fun j => mkHostFwdCmd proto hostIP ((hp + (i + j)) % 65536)
              ((cp + (i + j)) % 65536)) ∘ Nat.succ) := by
        apply List.map_congr_left
        intro a _
        have harg : i + 1 + a = i + (a + 1) := by omega
        simp [Function.comp, Nat.succ_eq_add_one, harg]
      simp [htail]

/-- The protocol loop with an always-successful socket expands each
protocol's full range in protocol order. -/
theorem hostFwdProtoLoop_all (hostIP : String) (hp cp r : Nat) :
    ∀ protos : List String,
      hostFwdProtoLoop (fun _ => true) hostIP hp cp r protos
        = (protos.flatMap (fun proto => (List.range r).map (fun j =>
            mkHostFwdCmd proto hostIP ((hp + j) % 65536) ((cp + j) % 65536))), true) := by
  intro protos
  induction protos with
  | nil => rfl
  | cons p rest ih =>
      simp only [hostFwdProtoLoop]
      rw [hostFwdRangeLoop_all, ih]
      simp

/-- The full expansion with an always-successful socket: mappings in
order, then protocols, then range offsets. -/
theorem setupRootlessPortMappingViaSlirp_all :
    ∀ ports : List PortMapping,
      setupRootlessPortMappingViaSlirp (fun _ => true) ports
        = (ports.flatMap (fun p =>
            (goSplit p.Protocol ',').flatMap (fun proto =>
              (List.range p.Range).map (fun j =>
                mkHostFwdCmd proto (if p.HostIP = "" then "0.0.0.0" else p.HostIP)
                  ((p.HostPort + j) % 65536) ((p.ContainerPort + j) % 65536)))), true) := by
  intro ports
  induction ports with
  | nil => rfl
  | cons p rest ih =>
      simp only [setupRootlessPortMappingViaSlirp]
      rw [hostFwdProtoLoop_all, ih]
      simp

/-- Bitwise-or of a value below `2 ^ k` with a `k`-shifted value is plain
addition (the byte-assembly idiom of `addToIP`). -/
theorem lor_shl_eq_add {x y k : Nat} (hx : x < 2 ^ k) :
    x ||| y <<< k = 2 ^ k * y + x := by
  apply Nat.eq_of_testBit_eq
  intro j
  rw [Nat.testBit_mul_pow_two_add y hx j]
  rcases Nat.lt_or_ge j k with hj | hj
  · rw [if_pos hj]
    simp [Nat.testBit_or, Nat.testBit_shiftLeft, Nat.not_le.mpr hj]
  · have hxj : x.testBit j = false :=
      Nat.testBit_lt_two_pow (Nat.lt_of_lt_of_le hx (Nat.pow_le_pow_right (by omega) hj))
    rw [if_neg (Nat.not_lt.mpr hj)]
    simp [Nat.testBit_or, Nat.testBit_shiftLeft, hj, hxj]

/-- The `uint32` the code assembles from the four subnet-base bytes is the
big-endian integer interpretation of the base address. -/
theorem ipInteger_eq_val {q : IPv4Quad} (hw : q.wf) :
    q.d ||| q.c <<< 8 ||| q.b <<< 16 ||| q.a <<< 24 = q.val := by
  obtain ⟨ha, hb, hc, hd⟩ := hw
  have h1 : q.d ||| q.c <<< 8 = 2 ^ 8 * q.c + q.d := lor_shl_eq_add (by omega)
  have hlt1 : 2 ^ 8 * q.c + q.d < 2 ^ 16 := by omega
  have h2 : q.d ||| q.c <<< 8 ||| q.b <<< 16
      = 2 ^ 16 * q.b + (2 ^ 8 * q.c + q.d) := by
    rw [h1]
    exact lor_shl_eq_add hlt1
  have hlt2 : 2 ^ 16 * q.b + (2 ^ 8 * q.c + q.d) < 2 ^ 24 := by omega
  have h3 : q.d ||| q.c <<< 8 ||| q.b <<< 16 ||| q.a <<< 24
      = 2 ^ 24 * q.a + (2 ^ 16 * q.b + (2 ^ 8 * q.c + q.d)) := by
    rw [h2]
    exact lor_shl_eq_add hlt2
  rw [h3, IPv4Quad.val]
  ring

/-- Reassembling the four extracted bytes of a 32-bit value recovers it. -/
theorem bytesOfUInt32_val {n : Nat} (h : n < 2 ^ 32) :
    (bytesOfUInt32 n).val = n := by
  have h255 : ∀ m : Nat, m &&& 255 = m % 256 := by
    intro m
    have he : (255 : Nat) = 2 ^ 8 - 1 := by norm_num
    rw [he, Nat.and_pow_two_sub_one_eq_mod]
  unfold bytesOfUInt32 IPv4Quad.val
  simp only [Nat.shiftRight_eq_div_pow, h255]
  omega

/-! ## Claim theorems -/

/-- C9: with an empty configured port-mapping list the reload returns
success immediately, recomputing no child IP and opening no connection. -/
theorem reload_empty_mappings_noop (env : ReloadEnv) :
    reloadRootlessRLKPortMapping [] env = (.ok (), []) := rfl

/-- C7: the DAD sysctl coordination of `setupSlirp4netns` never attempts a
write (and logs no error) when the sysctl file does not exist, and always
leaves the sysctl at its pre-setup value once the whole setup completes,
whether helper start and readiness succeeded or failed. -/
theorem dadSysctlCoordinator_spec :
    (∀ (e a b : Bool), (setupSlirp4netnsDad e none a b).1.writes = []
        ∧ (setupSlirp4netnsDad e none a b).1.loggedErr = none)
    ∧ (∀ (e : Bool) (fs : Option String) (a b : Bool),
        (setupSlirp4netnsDad e fs a b).1.file = fs) := by
  constructor
  · intro e a b
    cases e <;> simp [setupSlirp4netnsDad, dadSysctlCoordinator, readSysctl]
  · intro e fs a b
    cases e <;> cases fs <;>
      simp [setupSlirp4netnsDad, dadSysctlCoordinator, readSysctl, writeSysctl]

/-- C8: once the reload call has connected and written the child IP, it
succeeds exactly when the full response equals `"OK"`, and any other
response is surfaced verbatim as the error detail (a single read, no
retry). -/
theorem reloadRootlessRLKPortMapping_spec (ports : List PortMapping)
    (env : ReloadEnv) (data : String) (hne : ports ≠ [])
    (hc : env.connect = .ok ()) (hw : env.encodeWrite = .ok ())
    (hr : env.readAll = .ok data) :
    ((reloadRootlessRLKPortMapping ports env).1 = .ok () ↔ data = "OK")
    ∧ (data ≠ "OK" →
        (reloadRootlessRLKPortMapping ports env).1
          = .error ("port reloading failed: " ++ data)) := by
  have hlen : ¬ ports.length = 0 := by cases ports <;> simp_all
  unfold reloadRootlessRLKPortMapping
  rw [if_neg hlen, hc, hw, hr]
  by_cases h : data = "OK" <;> simp [h]

/-- Witness for C8 at concrete inputs: a server replying
`"permission denied"` yields that string as the error detail. -/
theorem reloadRootlessRLKPortMapping_spec_witness :
    (reloadRootlessRLKPortMapping [⟨"tcp", "", 8080, 80, 1⟩]
        ⟨.ok (), .ok (), .ok "permission denied"⟩).1
      = .error ("port reloading failed: " ++ "permission denied") :=
  (reloadRootlessRLKPortMapping_spec _ _ "permission denied" (by decide)
      rfl rfl rfl).2 (by decide)

/-- C10: `addToIP` hits its nil-`To4` branch (a panic in Go, a
distinguished error here) exactly when the subnet base has no 4-byte form,
and `GetSlirp4netnsIP` inherits the same precondition. -/
theorem addToIP_nilTo4_iff (S : IPNet) (off : Nat) :
    ((addToIP S off = .error .nilTo4Panic) ↔ S.ip.to4 = none)
    ∧ ((GetSlirp4netnsIP (some S) = .error .nilTo4Panic) ↔ S.ip.to4 = none) := by
  have h : ∀ o : Nat, (addToIP S o = .error AddToIPErr.nilTo4Panic) ↔ S.ip.to4 = none := by
    intro o
    cases hq : S.ip.to4 with
    | none => simp [addToIP, hq]
    | some q =>
        simp only [addToIP, hq]
        apply iff_of_false
        · split
          · simp
          · split <;> simp
        · simp
  exact ⟨h off, h 100⟩

/-- Witness for C10: a pure IPv6 subnet takes the panic-modelling branch. -/
theorem addToIP_nilTo4_iff_witness :
    addToIP ⟨⟨[253, 0, 0, 0, 0, 0, 0, 0, 0, 0, 0, 0, 0, 0, 0, 1]⟩, List.replicate 16 255⟩ 2
      = .error .nilTo4Panic :=
  (addToIP_nilTo4_iff _ 2).1.mpr (by decide)

/-- Counterexample to C4 as frozen: for the IPv4 subnet 10.0.2.0/31 and
the fixed offset 2, `addToIP` does not return an address at all — the
computed address 10.0.2.2 falls outside the subnet and a not-in-subnet
error is returned. -/
theorem addToIP_not_in_subnet_error :
    (parseCIDR "10.0.2.0/31").map (fun p => addToIP p.2 2)
      = some (.error .notInSubnet) := by decide

/-- C4 (amended): for every IPv4 subnet and offset in 2, 3, 100, the
computed address equals the big-endian 32-bit interpretation of the base
plus the offset and is returned exactly when it lies within the subnet;
a sum escaping the subnet yields a not-in-subnet error, and a sum wrapping
past 2^32 yields an overflow error, never a wrapped address. -/
theorem addToIP_spec (S : IPNet) (q : IPv4Quad) (off : Nat)
    (hq : S.ip.to4 = some q) (hw : q.wf)
    (hoff : off = 2 ∨ off = 3 ∨ off = 100) :
    (2 ^ 32 ≤ q.val + off → addToIP S off = .error .overflow)
    ∧ (q.val + off < 2 ^ 32 →
        (bytesOfUInt32 (q.val + off)).val = q.val + off
        ∧ (ipnetContains S (goIPv4Quad (bytesOfUInt32 (q.val + off))) = true →
            addToIP S off = .ok (goIPv4Quad (bytesOfUInt32 (q.val + off))))
        ∧ (ipnetContains S (goIPv4Quad (bytesOfUInt32 (q.val + off))) = false →
            addToIP S off = .error .notInSubnet)) := by
  have hvlt : q.val < 2 ^ 32 := by
    obtain ⟨ha, hb, hc, hd⟩ := hw
    unfold IPv4Quad.val
    omega
  have hofflt : off < 2 ^ 32 := by rcases hoff with rfl | rfl | rfl <;> omega
  have hioff : off % 2 ^ 32 = off := Nat.mod_eq_of_lt hofflt
  have hival : (q.d ||| q.c <<< 8 ||| q.b <<< 16 ||| q.a <<< 24) % 2 ^ 32 = q.val := by
    rw [ipInteger_eq_val hw]
    exact Nat.mod_eq_of_lt hvlt
  constructor
  · intro hov
    simp only [addToIP, hq, hival, hioff]
    have hlt : (q.val + off) % 2 ^ 32 < q.val := by omega
    rw [if_pos hlt]
  · intro hnov
    have heq : (q.val + off) % 2 ^ 32 = q.val + off := Nat.mod_eq_of_lt hnov
    refine ⟨bytesOfUInt32_val hnov, ?_, ?_⟩
    · intro hcont
      simp only [addToIP, hq, hival, hioff, heq]
      rw [if_neg (by omega), if_pos hcont]
    · intro hcont
      simp only [addToIP, hq, hival, hioff, heq]
      rw [if_neg (by omega), if_neg (by simp [hcont])]

/-- Witness for the amended C4: in 10.0.2.0/24, offset 100 yields the
in-subnet address 10.0.2.100. -/
theorem addToIP_spec_witness :
    addToIP ⟨⟨[10, 0, 2, 0]⟩, [255, 255, 255, 0]⟩ 100 = .ok (goIPv4 10 0 2 100)
    ∧ ipnetContains ⟨⟨[10, 0, 2, 0]⟩, [255, 255, 255, 0]⟩ (goIPv4 10 0 2 100) = true := by
  have h := addToIP_spec ⟨⟨[10, 0, 2, 0]⟩, [255, 255, 255, 0]⟩ ⟨10, 0, 2, 0⟩ 100 rfl
    (by decide) (Or.inr (Or.inr rfl))
  have h2 := (h.2 (by decide)).2.1 (by decide)
  exact ⟨h2.trans (by decide), by decide⟩

/-- C5: the readiness barrier declares success on a byte received before
the child exits; a child that exited normally before writing produces an
error carrying the captured log content verbatim inside its message; a
child killed by a signal produces the distinct signal-specific error. -/
theorem waitForSync_spec (prog log : String) (pre : List SyncEvent)
    (hpre : pre.all SyncEvent.nondecisive = true)
    (hplain : log.data.all plainChar = true) :
    waitForSync (pre ++ [SyncEvent.readByte]) = some (.ok ())
    ∧ waitForSync (pre ++ [SyncEvent.readTimeout (.exited (.ok log))])
        = some (.error (.exitedWithLog log))
    ∧ renderSyncErr prog (.exitedWithLog log)
        = (prog ++ " failed: " ++ "\"") ++ log ++ "\""
    ∧ waitForSync (pre ++ [SyncEvent.readTimeout .signaled])
        = some (.error .killedBySignal)
    ∧ SyncErr.killedBySignal ≠ SyncErr.exitedWithLog log := by
  refine ⟨?_, ?_, ?_, ?_, ?_⟩
  · rw [waitForSync_skip hpre]; rfl
  · rw [waitForSync_skip hpre]; rfl
  · show prog ++ " failed: " ++ goQuote log = _
    rw [goQuote_plain hplain]
    simp only [String.append_assoc]
  · rw [waitForSync_skip hpre]; rfl
  · simp

/-- C6: the control-socket backend issues exactly four `add_hostfwd`
commands for the mapping tcp,udp 0.0.0.0 8080→80 range 2, in the order
tcp 8080→80, tcp 8081→81, udp 8080→80, udp 8081→81; in general the
expansion iterates the mappings in order, then each mapping's protocols,
then the range offsets, one command per triple. -/
theorem setupRootlessPortMappingViaSlirp_order :
    (setupRootlessPortMappingViaSlirp (fun _ => true)
        [{ Protocol := "tcp,udp", HostIP := "0.0.0.0", HostPort := 8080,
           ContainerPort := 80, Range := 2 }]).1
      = [mkHostFwdCmd "tcp" "0.0.0.0" 8080 80, mkHostFwdCmd "tcp" "0.0.0.0" 8081 81,
         mkHostFwdCmd "udp" "0.0.0.0" 8080 80, mkHostFwdCmd "udp" "0.0.0.0" 8081 81]
    ∧ ∀ ports : List PortMapping,
        (setupRootlessPortMappingViaSlirp (fun _ => true) ports).1
          = ports.flatMap (fun p =>
              (goSplit p.Protocol ',').flatMap (fun proto =>
                (List.range p.Range).map (fun j =>
                  mkHostFwdCmd proto (if p.HostIP = "" then "0.0.0.0" else p.HostIP)
                    ((p.HostPort + j) % 65536) ((p.ContainerPort + j) % 65536)))) := by
  constructor
  · decide
  · intro ports
    rw [setupRootlessPortMappingViaSlirp_all]

/-- Counterexample to C1 as frozen: with the merged option sequence
`["mtu=1500", "mtu=2000"]` the parser's resulting MTU is 2000, the value
of the LATER entry, not 1500 from the earlier one. -/
theorem parse_earlier_entry_does_not_win :
    (parseSlirp4netnsNetworkOptions [] false [] ["mtu=1500", "mtu=2000"]).map
        slirp4netnsNetworkOptions.mtu = .ok 2000
    ∧ (parseSlirp4netnsNetworkOptions [] false [] ["mtu=1500", "mtu=2000"]).map
        slirp4netnsNetworkOptions.mtu ≠ .ok 1500 := by decide

/-- C1 (amended): in a merged ordered option sequence containing the same
key twice with different valid values, the parser's resulting value for
that key is the one from the LATER entry — later entries override earlier
keys, and the result differs from the earlier entry's value. -/
theorem parse_last_duplicate_wins
    (networkCmdOptions : List String) (noPivotRoot : Bool) (ifaces : List String)
    (extraOptions l1 l2 l3 : List String) (o1 o2 : String)
    (res : slirp4netnsNetworkOptions)
    (hsplit : networkCmdOptions ++ extraOptions = l1 ++ o1 :: l2 ++ o2 :: l3)
    (_hk : keyOf o1 = keyOf o2)
    (h3 : ∀ o ∈ l3, keyOf o ≠ keyOf o2)
    (hne : interpOpt ifaces o1 ≠ interpOpt ifaces o2)
    (hres : parseSlirp4netnsNetworkOptions networkCmdOptions noPivotRoot ifaces
        extraOptions = .ok res) :
    getField res (keyOf o2) = interpOpt ifaces o2
    ∧ getField res (keyOf o2) ≠ interpOpt ifaces o1 := by
  unfold parseSlirp4netnsNetworkOptions at hres
  rw [hsplit] at hres
  have hshape : l1 ++ o1 :: l2 ++ o2 :: l3 = (l1 ++ o1 :: l2) ++ (o2 :: l3) := by simp
  rw [hshape] at hres
  have hmain := parseLoop_last_wins h3 hres
  refine ⟨hmain, ?_⟩
  rw [hmain]
  exact Ne.symm hne

/-- Witness for the amended C1: with the merged sequence
`["mtu=1500", "mtu=2000"]` the resulting MTU field holds the later value
2000 and not the earlier 1500. -/
theorem parse_last_duplicate_wins_witness :
    getField
        { cidr := "", disableHostLoopback := true, enableIPv6 := true,
          isSlirpHostForward := false, noPivotRoot := false, mtu := 2000,
          outboundAddr := "", outboundAddr6 := "" } (keyOf "mtu=2000")
      = interpOpt [] "mtu=2000"
    ∧ getField
        { cidr := "", disableHostLoopback := true, enableIPv6 := true,
          isSlirpHostForward := false, noPivotRoot := false, mtu := 2000,
          outboundAddr := "", outboundAddr6 := "" } (keyOf "mtu=2000")
      ≠ interpOpt [] "mtu=1500" :=
  parse_last_duplicate_wins ["mtu=1500"] false [] ["mtu=2000"] [] [] [] "mtu=1500" "mtu=2000"
    { cidr := "", disableHostLoopback := true, enableIPv6 := true,
      isSlirpHostForward := false, noPivotRoot := false, mtu := 2000,
      outboundAddr := "", outboundAddr6 := "" }
    (by decide) (by decide) (by decide) (by decide) (by decide)

/-- Counterexample to C3 as frozen: the parser returns successfully with
`outboundAddr6` set (to an existing interface name) while `enableIPv6` is
false; the invariant is not enforced by the parser. -/
theorem parser_allows_outboundAddr6_with_ipv6_disabled :
    (parseSlirp4netnsNetworkOptions [] false ["eth0"]
        ["enable_ipv6=false", "outbound_addr6=eth0"]).map
      (fun r => (r.outboundAddr6, r.enableIPv6)) = .ok ("eth0", false)
    ∧ ("eth0" : String) ≠ "" := by decide

/-- C3 (amended): the invariant `outboundAddr6 set → enableIPv6` is
enforced by the Argument Builder, which rejects any options value with
`outboundAddr6` set and IPv6 disabled, whatever the feature set. -/
theorem builder_rejects_outboundAddr6_without_ipv6
    (o : slirp4netnsNetworkOptions) (f : slirpFeatures)
    (h6 : o.outboundAddr6 ≠ "") (hip : o.enableIPv6 = false) :
    (createBasicSlirp4netnsCmdArgs o f).isOk = false := by
  simp only [createBasicSlirp4netnsCmdArgs]
  split_ifs with g1 g2 g3 g4 g5 <;>
    first
      | rfl
      | exact absurd ⟨h6, by simp [hip]⟩ g5

/-- Witness for the amended C3 at concrete options and features. -/
theorem builder_rejects_outboundAddr6_without_ipv6_witness :
    (createBasicSlirp4netnsCmdArgs
      { cidr := "", disableHostLoopback := true, enableIPv6 := false,
        isSlirpHostForward := false, noPivotRoot := false, mtu := 65520,
        outboundAddr := "", outboundAddr6 := "fd00::2" }
      ⟨true, true, true, true, true, true, true⟩).isOk = false :=
  builder_rejects_outboundAddr6_without_ipv6 _ _ (by decide) rfl

/-- C2 (amended): the Argument Builder never emits a flag whose
corresponding feature bit is false — on success the argument vector is
exactly the feature-guarded segments below, in order — and it succeeds
exactly when the requested cidr, enable-ipv6, outbound-addr and
outbound-addr6 options are backed by their features; an unsupported
disable-host-loopback, mtu, sandbox or seccomp flag is silently omitted
rather than reported. -/
theorem createBasicSlirp4netnsCmdArgs_spec (o : slirp4netnsNetworkOptions)
    (f : slirpFeatures) :
    ((createBasicSlirp4netnsCmdArgs o f).isOk = true ↔
      ((o.cidr ≠ "" → f.HasCIDR = true)
        ∧ (o.enableIPv6 = true → f.HasIPv6 = true)
        ∧ (o.outboundAddr ≠ "" → f.HasOutboundAddr = true)
        ∧ (o.outboundAddr6 ≠ "" →
            f.HasOutboundAddr = true ∧ f.HasIPv6 = true ∧ o.enableIPv6 = true)))
    ∧ ((createBasicSlirp4netnsCmdArgs o f).isOk = true →
        createBasicSlirp4netnsCmdArgs o f = .ok (
          (if o.disableHostLoopback ∧ f.HasDisableHostLoopback
            then ["--disable-host-loopback"] else [])
          ++ (if o.mtu > -1 ∧ f.HasMTU then ["--mtu=" ++ toString o.mtu] else [])
          ++ (if ¬o.noPivotRoot ∧ f.HasEnableSandbox then ["--enable-sandbox"] else [])
          ++ (if f.HasEnableSeccomp then ["--enable-seccomp"] else [])
          ++ (if o.cidr ≠ "" ∧ f.HasCIDR then ["--cidr=" ++ o.cidr] else [])
          ++ (if o.enableIPv6 = true ∧ f.HasIPv6 then ["--enable-ipv6"] else [])
          ++ (if o.outboundAddr ≠ "" ∧ f.HasOutboundAddr
            then ["--outbound-addr=" ++ o.outboundAddr] else [])
          ++ (if o.outboundAddr6 ≠ "" ∧ f.HasOutboundAddr ∧ f.HasIPv6 ∧ o.enableIPv6 = true
            then ["--outbound-addr6=" ++ o.outboundAddr6] else []))) := by
  simp only [createBasicSlirp4netnsCmdArgs]
  by_cases g1 : o.cidr ≠ "" ∧ ¬f.HasCIDR = true
  · rw [if_pos g1]
    exact ⟨iff_of_false (by decide) (fun hc => g1.2 (hc.1 g1.1)),
           fun hc => absurd hc (by decide)⟩
  rw [if_neg g1]
  by_cases g2 : o.enableIPv6 = true ∧ ¬f.HasIPv6 = true
  · rw [if_pos g2]
    exact ⟨iff_of_false (by decide) (fun hc => g2.2 (hc.2.1 g2.1)),
           fun hc => absurd hc (by decide)⟩
  rw [if_neg g2]
  by_cases g3 : o.outboundAddr ≠ "" ∧ ¬f.HasOutboundAddr = true
  · rw [if_pos g3]
    exact ⟨iff_of_false (by decide) (fun hc => g3.2 (hc.2.2.1 g3.1)),
           fun hc => absurd hc (by decide)⟩
  rw [if_neg g3]
  by_cases g4 : o.outboundAddr6 ≠ "" ∧ (¬f.HasOutboundAddr = true ∨ ¬f.HasIPv6 = true)
  · rw [if_pos g4]
    refine ⟨iff_of_false (by decide) (fun hc => ?_), fun hc => absurd hc (by decide)⟩
    exact g4.2.elim (fun hn => hn (hc.2.2.2 g4.1).1) (fun hn => hn (hc.2.2.2 g4.1).2.1)
  rw [if_neg g4]
  by_cases g5 : o.outboundAddr6 ≠ "" ∧ ¬o.enableIPv6 = true
  · rw [if_pos g5]
    exact ⟨iff_of_false (by decide) (fun hc => g5.2 (hc.2.2.2 g5.1).2.2),
           fun hc => absurd hc (by decide)⟩
  rw [if_neg g5]
  have i5 : o.cidr ≠ "" → f.HasCIDR = true := by tauto
  have i6 : o.enableIPv6 = true → f.HasIPv6 = true := by tauto
  have i7 : o.outboundAddr ≠ "" → f.HasOutboundAddr = true := by tauto
  have i8 : o.outboundAddr6 ≠ "" →
      f.HasOutboundAddr = true ∧ f.HasIPv6 = true ∧ o.enableIPv6 = true := by tauto
  refine ⟨iff_of_true rfl ⟨i5, i6, i7, i8⟩, fun _ => ?_⟩
  have e5 : (if o.cidr ≠ "" ∧ f.HasCIDR = true then ["--cidr=" ++ o.cidr]
        else ([] : List String))
      = (if o.cidr ≠ "" then ["--cidr=" ++ o.cidr] else []) :=
    if_congr ⟨fun hc => hc.1, fun hc => ⟨hc, i5 hc⟩⟩ rfl rfl
  have e6 : (if o.enableIPv6 = true ∧ f.HasIPv6 = true then ["--enable-ipv6"]
        else ([] : List String))
      = (if o.enableIPv6 = true then ["--enable-ipv6"] else []) :=
    if_congr ⟨fun hc => hc.1, fun hc => ⟨hc, i6 hc⟩⟩ rfl rfl
  have e7 : (if o.outboundAddr ≠ "" ∧ f.HasOutboundAddr = true
        then ["--outbound-addr=" ++ o.outboundAddr] else ([] : List String))
      = (if o.outboundAddr ≠ "" then ["--outbound-addr=" ++ o.outboundAddr] else []) :=
    if_congr ⟨fun hc => hc.1, fun hc => ⟨hc, i7 hc⟩⟩ rfl rfl
  have e8 : (if o.outboundAddr6 ≠ "" ∧ f.HasOutboundAddr = true ∧ f.HasIPv6 = true
          ∧ o.enableIPv6 = true
        then ["--outbound-addr6=" ++ o.outboundAddr6] else ([] : List String))
      = (if o.outboundAddr6 ≠ "" then ["--outbound-addr6=" ++ o.outboundAddr6] else []) :=
    if_congr ⟨fun hc => hc.1, fun hc => ⟨hc, i8 hc⟩⟩ rfl rfl
  rw [e5, e6, e7, e8]
  simp only [List.nil_append]

/-- Witness for the amended C2: the end-to-end example of the spec — all
features present, MTU 1500, host loopback disabled, IPv6 enabled,
pivot root in use — produces exactly the five flags, in order. -/
theorem createBasicSlirp4netnsCmdArgs_spec_witness :
    createBasicSlirp4netnsCmdArgs
      { cidr := "", disableHostLoopback := true, enableIPv6 := true,
        isSlirpHostForward := false, noPivotRoot := false, mtu := 1500,
        outboundAddr := "", outboundAddr6 := "" }
      ⟨true, true, true, true, true, true, true⟩
      = .ok ["--disable-host-loopback", "--mtu=1500", "--enable-sandbox",
             "--enable-seccomp", "--enable-ipv6"] := by
  have h := (createBasicSlirp4netnsCmdArgs_spec
    { cidr := "", disableHostLoopback := true, enableIPv6 := true,
      isSlirpHostForward := false, noPivotRoot := false, mtu := 1500,
      outboundAddr := "", outboundAddr6 := "" }
    ⟨true, true, true, true, true, true, true⟩).2 (by decide)
  rw [h]
  decide

/-- Counterexample to C2 as frozen: a non-default MTU (1500, default
65520) with `HasMTU` absent is silently dropped — the builder succeeds
with an empty argument vector instead of returning a "not supported"
error. -/
theorem builder_silently_drops_unsupported_mtu :
    createBasicSlirp4netnsCmdArgs
      { cidr := "", disableHostLoopback := true, enableIPv6 := false,
        isSlirpHostForward := false, noPivotRoot := true, mtu := 1500,
        outboundAddr := "", outboundAddr6 := "" }
      ⟨false, false, false, false, false, false, false⟩ = .ok []
    ∧ (1500 : Int) ≠ slirp4netnsMTU := by decide

/-- Witness for C5 at a concrete trace, program name and log content. -/
theorem waitForSync_spec_witness :
    waitForSync [SyncEvent.readTimeout .wrongPid, SyncEvent.readByte] = some (.ok ())
    ∧ waitForSync [SyncEvent.readTimeout .wrongPid,
        SyncEvent.readTimeout (.exited (.ok "boom"))]
        = some (.error (.exitedWithLog "boom"))
    ∧ renderSyncErr "slirp4netns" (.exitedWithLog "boom")
        = ("slirp4netns" ++ " failed: " ++ "\"") ++ "boom" ++ "\""
    ∧ waitForSync [SyncEvent.readTimeout .wrongPid, SyncEvent.readTimeout .signaled]
        = some (.error .killedBySignal) := by
  have h := waitForSync_spec "slirp4netns" "boom" [SyncEvent.readTimeout .wrongPid]
    (by decide) (by decide)
  exact ⟨h.1, h.2.1, h.2.2.1, h.2.2.2.1⟩

end Slirp4netns
